import Mathlib

/-!
Formal model of the Payment-Trackers AR event/alert engine.

This file gives a shallow embedding, in Lean 4, of the event-sourced
ledger and notification subsystem of the repository: the event replay
fold, the lifecycle command handlers, the event store's idempotent
append, the alert queue, the delivery retry logic, the time-driven
sweep, and the month-arithmetic used for next-month AR creation.

Date values are embedded in two ways, matching how the source uses them:

* as an integer count of milliseconds since an epoch (`Int`), for
  timestamps, `setHours(0,0,0,0)` midnight normalization and
  `getTime()` arithmetic (the embedding is timezone-free: a "day" is a
  fixed 86_400_000 ms window);
* as a civil calendar triple `CalDate` (year, 0-based month, day of
  month) for the JavaScript `setMonth`/`setDate(0)` month arithmetic
  in `src/utils/date-helpers.ts` (`addMonths`), where month lengths
  and clamping matter.
-/

namespace PaymentTracker

/-- AR lifecycle status (src ARStatus enum). -/
inductive ARStatus where
  | PENDING
  | OVERDUE
  | PAID
  | WRITTEN_OFF
deriving DecidableEq, Repr

/-- Money value object (src Money). The decimal amount is embedded as an
integer number of minor units; only equality and positivity of amounts are
used by the modelled code. -/
structure Money where
  value : Int
  currency : String
deriving DecidableEq, Repr

/-- Actor kind (src ActorType enum). -/
inductive ActorType where
  | SYSTEM
  | MANAGER
  | SALES
deriving DecidableEq, Repr

/-- Actor descriptor (src Actor). -/
structure Actor where
  type : ActorType
  user_id : Option String := none
deriving DecidableEq, Repr

/-- Payload of an AR_CREATED event (src ARCreatedEvent.payload). -/
structure CreatedPayload where
  home_id : String
  zone : String
  customer_name : String
  amount : Money
  invoice_date : Int
  due_date : Int
  assigned_sales_id : Option String
  customer_chat_id : Option String
  manager_chat_id : Option String
deriving DecidableEq, Repr

/-- Discriminated event kind with its kind-specific payload (src AREvent
union plus the alert lifecycle kinds of the EventType enum; the alert
payloads are irrelevant to the AR projection and are carried opaquely). -/
inductive AREventKind where
  | arCreated (payload : CreatedPayload)
  | statusChanged (old_status new_status : ARStatus) (reason : String)
  | followUpLogged (notes : String) (next_action : Option String)
      (next_action_date : Option Int)
  | paymentVerified (paid_amount : Money) (payment_date : Int)
      (verification_method verified_by : String)
  | dueDateChanged (old_due_date new_due_date : Int) (reason : String)
  | alertQueued (alert_id : String)
  | alertSent (alert_id : String)
  | alertFailed (alert_id : String)
deriving DecidableEq, Repr

/-- Domain event (src BaseEvent fields; the schema version of
EventMetadata is carried directly). -/
structure AREvent where
  event_id : String
  ar_id : String
  kind : AREventKind
  timestamp : Int
  actor : Actor
  metaVersion : Nat
deriving DecidableEq, Repr

/-- Whether the first-event guard of replay accepts this kind
(`event_type === EventType.AR_CREATED` in the source). -/
def AREventKind.isCreated : AREventKind → Bool
  | .arCreated _ => true
  | _ => false

/-- Materialized AR snapshot (src ARState). -/
structure ARState where
  ar_id : String
  home_id : String
  zone : String
  customer_name : String
  amount : Money
  current_status : ARStatus
  invoice_date : Int
  due_date : Int
  paid_date : Option Int := none
  assigned_sales_id : Option String := none
  customer_chat_id : Option String := none
  manager_chat_id : Option String := none
  last_event_id : String
  last_event_at : Int
  event_count : Nat
  version : Nat
deriving DecidableEq, Repr

/-- EventReplayService.initializeFromCreatedEvent: seed the snapshot from
the creation event; status is forced to PENDING regardless of payload. -/
def initializeFromCreatedEvent (e : AREvent) (p : CreatedPayload) : ARState :=
  { ar_id := e.ar_id
    home_id := p.home_id
    zone := p.zone
    customer_name := p.customer_name
    amount := p.amount
    current_status := ARStatus.PENDING
    invoice_date := p.invoice_date
    due_date := p.due_date
    assigned_sales_id := p.assigned_sales_id
    customer_chat_id := p.customer_chat_id
    manager_chat_id := p.manager_chat_id
    last_event_id := e.event_id
    last_event_at := e.timestamp
    event_count := 1
    version := 1 }

/-- EventReplayService.applyEvent: immutable per-event transition.
Bookkeeping fields are updated for every event; the switch on the event
kind applies the business transition; unknown and alert kinds fall to the
no-op default branch. -/
def applyEvent (state : ARState) (event : AREvent) : ARState :=
  let updated : ARState :=
    { state with
      last_event_id := event.event_id
      last_event_at := event.timestamp
      event_count := state.event_count + 1 }
  match event.kind with
  | .statusChanged _ new_status _ =>
      { updated with current_status := new_status }
  | .paymentVerified _ payment_date _ _ =>
      { updated with current_status := ARStatus.PAID
                     paid_date := some payment_date }
  | .dueDateChanged _ new_due_date _ =>
      { updated with due_date := new_due_date }
  | _ => updated

/-- EventReplayService.replayEvents: fails on an empty list, fails if the
first event is not AR_CREATED, otherwise folds applyEvent over the tail of
the sequence starting from the initialized snapshot. -/
def replayEvents (events : List AREvent) : Except String ARState :=
  match events with
  | [] => Except.error "Cannot replay from empty event list"
  | e :: rest =>
    match e.kind with
    | .arCreated p =>
        Except.ok (rest.foldl applyEvent (initializeFromCreatedEvent e p))
    | _ => Except.error "First event must be AR_CREATED"

/-- Milliseconds per day, the divisor used by the source for day
arithmetic (1000 * 60 * 60 * 24). -/
def MS_PER_DAY : Int := 86400000

/-- Model of JavaScript `s.trim()`, used by the command validators on
their `!field || field.trim() === ''` guards: strip leading and
trailing spaces. (The built-in String.trim does not reduce inside the
kernel, so the model works on the character list directly.) -/
def strTrim (s : String) : String :=
  String.mk (((s.data.dropWhile (fun c => c == ' ')).reverse.dropWhile
    (fun c => c == ' ')).reverse)

/-- Model of `d.setHours(0, 0, 0, 0)` on an epoch-milliseconds date:
truncate to the enclosing day boundary (floor also for negative times). -/
def toMidnightMs (t : Int) : Int :=
  (Int.fdiv t MS_PER_DAY) * MS_PER_DAY

/-- isOverdue helper (src models/ar.ts): PAID and WRITTEN_OFF are never
overdue; otherwise both dates are normalized to midnight and compared
strictly. -/
def isOverdue (ar : ARState) (currentDate : Int) : Bool :=
  if ar.current_status == ARStatus.PAID
      || ar.current_status == ARStatus.WRITTEN_OFF then
    false
  else
    toMidnightMs currentDate > toMidnightMs ar.due_date

/-! ## Command layer state

The command handlers read and write two logical collections: the
append-only event log and the snapshot store. Both are embedded as
lists; `uuidv4()` identifiers and `new Date()` timestamps, which the
source draws from the environment, are passed in as arguments. -/

/-- Combined storage state seen by the command layer. -/
structure CmdState where
  events : List AREvent
  ars : List ARState
deriving DecidableEq, Repr

/-- IARRepository.findById over the snapshot collection. -/
def findById (ars : List ARState) (ar_id : String) : Option ARState :=
  ars.find? (fun a => a.ar_id == ar_id)

/-- IARRepository.updateStatus: set current_status of the matching
snapshot (MongoDB `$set` on one document). -/
def updateStatus (ars : List ARState) (ar_id : String) (new_status : ARStatus) :
    List ARState :=
  ars.map (fun a => if a.ar_id == ar_id then { a with current_status := new_status } else a)

/-- MongoARRepository.save: update the matching document, bumping the
optimistic version counter, or insert it when absent. In this
single-writer model the version precondition always matches. -/
def saveAR (ars : List ARState) (s : ARState) : List ARState :=
  if ars.any (fun a => a.ar_id == s.ar_id) then
    ars.map (fun a => if a.ar_id == s.ar_id then { s with version := s.version + 1 } else a)
  else
    ars ++ [s]

/-- ChangeARStatusDTO (src change-ar-status.command.ts). -/
structure ChangeARStatusDTO where
  ar_id : String
  new_status : ARStatus
  reason : String
  actor : Actor
deriving DecidableEq, Repr

/-- ChangeARStatusCommand.validateInput: returns the first validation
error message, or none when the input is accepted. The membership test
against the closed status list is kept from the source even though it
cannot fail on the typed embedding. -/
def validateChangeStatus (dto : ChangeARStatusDTO) : Option String :=
  if strTrim dto.ar_id == "" then
    some "ar_id is required"
  else if !([ARStatus.PENDING, ARStatus.OVERDUE, ARStatus.PAID,
             ARStatus.WRITTEN_OFF].contains dto.new_status) then
    some "Invalid status"
  else if strTrim dto.reason == "" then
    some "reason is required"
  else
    none

/-- The STATUS_CHANGED event built by ChangeARStatusCommand.execute. -/
def statusChangedEvent (dto : ChangeARStatusDTO) (old_status : ARStatus)
    (event_id : String) (now : Int) : AREvent :=
  { event_id := event_id
    ar_id := dto.ar_id
    kind := AREventKind.statusChanged old_status dto.new_status dto.reason
    timestamp := now
    actor := dto.actor
    metaVersion := 1 }

/-- ChangeARStatusCommand.execute: validate, load the snapshot, return
without writing anything when the status is unchanged, otherwise append
one STATUS_CHANGED event and update the materialized status. -/
def changeARStatus (dto : ChangeARStatusDTO) (event_id : String) (now : Int)
    (st : CmdState) : Except String CmdState :=
  match validateChangeStatus dto with
  | some msg => Except.error msg
  | none =>
    match findById st.ars dto.ar_id with
    | none => Except.error ("AR not found: " ++ dto.ar_id)
    | some currentAR =>
      if currentAR.current_status == dto.new_status then
        Except.ok st
      else
        Except.ok
          { events := st.events ++ [statusChangedEvent dto currentAR.current_status event_id now]
            ars := updateStatus st.ars dto.ar_id dto.new_status }

/-- VerifyPaymentDTO (src verify-payment.command.ts). -/
structure VerifyPaymentDTO where
  ar_id : String
  paid_amount : Money
  payment_date : Int
  verification_method : String
  verified_by : String
deriving DecidableEq, Repr

/-- VerifyPaymentCommand.validateInput: first failing check's message. -/
def validateVerifyPayment (dto : VerifyPaymentDTO) : Option String :=
  if strTrim dto.ar_id == "" then
    some "ar_id is required"
  else if dto.paid_amount.value ≤ 0 then
    some "paid_amount must be greater than 0"
  else if strTrim dto.paid_amount.currency == "" then
    some "currency is required"
  else if strTrim dto.verification_method == "" then
    some "verification_method is required"
  else if strTrim dto.verified_by == "" then
    some "verified_by is required"
  else
    none

/-- The PAYMENT_VERIFIED event built by VerifyPaymentCommand.execute. -/
def paymentVerifiedEvent (dto : VerifyPaymentDTO) (event_id : String)
    (now : Int) : AREvent :=
  { event_id := event_id
    ar_id := dto.ar_id
    kind := AREventKind.paymentVerified dto.paid_amount dto.payment_date
      dto.verification_method dto.verified_by
    timestamp := now
    actor := { type := ActorType.MANAGER, user_id := some dto.verified_by }
    metaVersion := 1 }

/-- State after the durable part of payment verification: the
PAYMENT_VERIFIED event is appended and the snapshot is saved with status
PAID, the paid date and refreshed bookkeeping fields. -/
def paidState (dto : VerifyPaymentDTO) (event_id : String) (now : Int)
    (st : CmdState) (ar : ARState) : CmdState :=
  { events := st.events ++ [paymentVerifiedEvent dto event_id now]
    ars := saveAR st.ars
      { ar with
        current_status := ARStatus.PAID
        paid_date := some dto.payment_date
        last_event_id := event_id
        last_event_at := now
        event_count := ar.event_count + 1 } }

/-- VerifyPaymentCommand.execute. The "create next month AR" side effect
is the injected dependency `nextAR` (constructor injection in the
source); a thrown error from it is caught and does not undo or fail the
payment verification. -/
def verifyPayment (nextAR : CmdState → Except String CmdState)
    (dto : VerifyPaymentDTO) (event_id : String) (now : Int)
    (st : CmdState) : Except String CmdState :=
  match validateVerifyPayment dto with
  | some msg => Except.error msg
  | none =>
    match findById st.ars dto.ar_id with
    | none => Except.error ("AR " ++ dto.ar_id ++ " not found")
    | some ar =>
      if ar.current_status == ARStatus.PAID then
        Except.error ("AR " ++ dto.ar_id ++ " is already marked as paid")
      else
        let st' := paidState dto event_id now st ar
        match nextAR st' with
        | Except.ok st'' => Except.ok st''
        | Except.error _ => Except.ok st'

/-! ## Event store (MongoEventStore.append)

The events collection carries a unique index on event_id. Inserting a
document whose event_id already exists raises the duplicate-key error
E11000, which append swallows; any other storage error propagates. The
possibility of an infrastructure error on this insert is passed in as
an explicit argument, since it is environmental. -/

/-- MongoEventStore.append: idempotent by event identity; duplicate
inserts are absorbed, infrastructure errors are re-thrown. -/
def eventStoreAppend (infraError : Option String) (store : List AREvent)
    (e : AREvent) : Except String (List AREvent) :=
  match infraError with
  | some msg => Except.error msg
  | none =>
    if store.any (fun d => d.event_id == e.event_id) then
      Except.ok store
    else
      Except.ok (store ++ [e])

/-! ## Alerts -/

/-- Alert classification (src AlertType enum). -/
inductive AlertType where
  | PRE_ALERT
  | DUE
  | OVERDUE
  | ESCALATION
deriving DecidableEq, Repr

/-- Alert target role (src TargetType enum). -/
inductive TargetType where
  | CUSTOMER
  | MANAGER
  | SALES
deriving DecidableEq, Repr

/-- Alert queue lifecycle status (src AlertStatus enum). -/
inductive AlertStatus where
  | QUEUED
  | PROCESSING
  | SENT
  | FAILED
deriving DecidableEq, Repr

/-- Delivery address (src DeliveryAddress; the platform is carried as its
string tag, "TELEGRAM" being the only variant in the source). -/
structure DeliveryAddress where
  platform : String
  chat_id : String
deriving DecidableEq, Repr

/-- Queued notification intent (src Alert). The message-data
substitution map is embedded as an association list. -/
structure Alert where
  alert_id : String
  ar_id : String
  dedup_key : Option String := none
  alert_type : AlertType
  target_type : TargetType
  priority : Nat
  delivery_address : DeliveryAddress
  message_template : String
  message_data : List (String × String)
  status : AlertStatus
  attempts : Nat
  max_attempts : Nat
  scheduled_for : Int
  sent_at : Option Int := none
  failed_at : Option Int := none
  error : Option String := none
  triggered_by_event_id : String
deriving DecidableEq, Repr

/-- AlertService.getDefaultPriority. -/
def getDefaultPriority (alertType : AlertType) : Nat :=
  match alertType with
  | AlertType.PRE_ALERT => 2
  | AlertType.DUE => 3
  | AlertType.OVERDUE => 4
  | AlertType.ESCALATION => 5

/-- Parameters of AlertService.queueAlert. The sweep worker passes a
`dedup_key` with every call, so the parameter record carries it
(optional, as on the Alert model). -/
structure QueueAlertParams where
  ar_id : String
  alert_type : AlertType
  target_type : TargetType
  delivery_chat_id : String
  delivery_platform : Option String := none
  priority : Option Nat := none
  scheduled_for : Option Int := none
  dedup_key : Option String := none
  message_template : String
  message_data : List (String × String)
  triggered_by_event_id : Option String := none
deriving DecidableEq, Repr

/-- Alert-queue storage state: the persisted intents plus the audit
event ids appended for them (ALERT_QUEUED events, by alert id). -/
structure QueueState where
  alerts : List Alert
  queuedEvents : List String
deriving DecidableEq, Repr

/-- IAlertRepository.findByDedupKey: the persisted alert carrying this
deduplication key, if any. -/
def findByDedupKey (alerts : List Alert) (dedup_key : String) : Option Alert :=
  alerts.find? (fun a => a.dedup_key == some dedup_key)

/-- The Alert document built by AlertService.queueAlert before insert. -/
def buildAlert (params : QueueAlertParams) (alert_id : String) (now : Int) : Alert :=
  { alert_id := alert_id
    ar_id := params.ar_id
    dedup_key := params.dedup_key
    alert_type := params.alert_type
    target_type := params.target_type
    priority := params.priority.getD (getDefaultPriority params.alert_type)
    delivery_address :=
      { platform := params.delivery_platform.getD "TELEGRAM"
        chat_id := params.delivery_chat_id }
    message_template := params.message_template
    message_data := params.message_data
    status := AlertStatus.QUEUED
    attempts := 0
    max_attempts := 3
    scheduled_for := params.scheduled_for.getD now
    triggered_by_event_id := params.triggered_by_event_id.getD "" }

/-- Modelled from the spec: AlertService.queueAlert of the current
domain/services/alert-service.ts. Only an out-of-date copy of that file
is in the repository tree (its QueueAlertParams has no dedup_key),
while its callers in the sweep worker pass a dedup_key on every call
and IAlertRepository.findByDedupKey exists solely for this check, so
the dedup enforcement step is reconstructed from the spec's words:
deduplication "enforcement is via a uniqueness check against existing
dedup keys prior to insert" — when the key is already present, no
second intent is persisted and the existing alert's id is returned;
otherwise the intent is saved QUEUED and an ALERT_QUEUED audit event is
appended, exactly as in the in-tree copy of queueAlert. -/
def queueAlert (params : QueueAlertParams) (alert_id event_id : String)
    (now : Int) (st : QueueState) : QueueState × String :=
  let insert : QueueState × String :=
    ({ alerts := st.alerts ++ [buildAlert params alert_id now]
       queuedEvents := st.queuedEvents ++ [event_id] }, alert_id)
  match params.dedup_key with
  | none => insert
  | some k =>
    match findByDedupKey st.alerts k with
    | some existing => (st, existing.alert_id)
    | none => insert

/-! ## Delivery retry (alert-delivery.ts and the models/alert helpers) -/

/-- canRetry helper (src models/alert.ts). -/
def canRetry (alert : Alert) : Bool :=
  alert.attempts < alert.max_attempts

/-- getNextRetryTime helper (src models/alert.ts): exponential backoff
`baseDelayMs * 2 ^ (attempts - 1)` from the current time. The source
defaults baseDelayMs to five minutes; the model passes it explicitly.
Every call site has attempts ≥ 1 (deliverAlert increments the counter
before any failure can be handled), so the natural subtraction in the
exponent agrees with the source. -/
def getNextRetryTime (alert : Alert) (now baseDelayMs : Int) : Int :=
  now + baseDelayMs * 2 ^ (alert.attempts - 1)

/-- The five-minute default base delay of getNextRetryTime. -/
def DEFAULT_BASE_DELAY_MS : Int := 5 * 60 * 1000

/-- The ALERT_FAILED audit event payload appended on every delivery
failure (alert id, failure time, message, attempts so far). -/
structure FailedAudit where
  alert_id : String
  failed_at : Int
  error : String
  attempts : Nat
deriving DecidableEq, Repr

/-- AlertDeliveryService.handleDeliveryFailure: record the error; while
attempts remain, requeue with the backoff schedule, otherwise mark the
alert terminally FAILED; in both branches an ALERT_FAILED audit event is
produced. -/
def handleDeliveryFailure (alert : Alert) (errorMessage : String)
    (now : Int) : Alert × FailedAudit :=
  let a := { alert with error := some errorMessage }
  let a' :=
    if canRetry a then
      { a with status := AlertStatus.QUEUED
               scheduled_for := getNextRetryTime a now DEFAULT_BASE_DELAY_MS }
    else
      { a with status := AlertStatus.FAILED, failed_at := some now }
  (a', { alert_id := alert.alert_id
         failed_at := now
         error := errorMessage
         attempts := alert.attempts })

/-- Persisted outcome of one delivery attempt: the saved alert, the
audit events appended, and the error re-surfaced to the polling worker
(the source saves state, appends the audit event and then re-throws). -/
structure DeliveryOutcome where
  alert : Alert
  sentAudit : Option String
  failedAudit : Option FailedAudit
  surfacedError : Option String
deriving DecidableEq, Repr

/-- AlertDeliveryService.deliverAlert: mark PROCESSING and increment the
attempt counter, then invoke the channel send. The send's result is
passed in (`Except` of the delivery receipt id), since the channel is
an external collaborator. On success the alert is marked SENT and an
ALERT_SENT audit event is appended; on failure handleDeliveryFailure
runs and the error is re-surfaced. -/
def deliverAlert (sendResult : Except String String) (alert : Alert)
    (now : Int) : DeliveryOutcome :=
  let processing := { alert with status := AlertStatus.PROCESSING
                                 attempts := alert.attempts + 1 }
  match sendResult with
  | Except.ok _delivery_id =>
      { alert := { processing with status := AlertStatus.SENT, sent_at := some now }
        sentAudit := some processing.alert_id
        failedAudit := none
        surfacedError := none }
  | Except.error msg =>
      let (a', audit) := handleDeliveryFailure processing msg now
      { alert := a'
        sentAudit := none
        failedAudit := some audit
        surfacedError := some msg }

/-! ## Time-driven sweep (workers/date-checker.ts, current version)

The sweep reads the snapshot store, promotes overdue ARs through the
change-status command, and enqueues alerts through queueAlert. Its
state bundles the command-layer state, the alert queue and a counter
supplying the fresh uuid identifiers the source draws per call. The
final sweep step, ensureFutureARs, only creates future AR records via
the create-AR command and never touches the alert queue, so it is
omitted from this alert-queue model of the run. -/

/-- Sweep state: command-layer storage, alert queue, fresh-id counter. -/
structure SweepState where
  cmd : CmdState
  queue : QueueState
  fresh : Nat
deriving DecidableEq, Repr

/-- MongoARRepository.findOverdue: PENDING ARs whose due date lies
strictly before the midnight of the supplied date (the ascending
due-date sort only fixes iteration order and is immaterial here). -/
def findOverdue (ars : List ARState) (current_date : Int) : List ARState :=
  ars.filter (fun a =>
    a.current_status == ARStatus.PENDING && a.due_date < toMidnightMs current_date)

/-- MongoARRepository.findByDueDateAndStatus: ARs of the given status
whose due date falls inside the calendar day of the supplied date
(start-of-day to end-of-day window). -/
def findByDueDateAndStatus (ars : List ARState) (due_date : Int)
    (status : ARStatus) : List ARState :=
  let startOfDay := toMidnightMs due_date
  ars.filter (fun a =>
    a.current_status == status
      && startOfDay ≤ a.due_date && a.due_date ≤ startOfDay + MS_PER_DAY - 1)

/-- Stand-in for `d.toISOString().split('T')[0]` on a date: the day
index as a string. It is injective per calendar day, which is the only
property the dedup keys and log strings rely on. -/
def dedupDayStr (t : Int) : String :=
  toString (Int.fdiv t MS_PER_DAY)

/-- Rendering of an amount as `value currency`, as interpolated into the
sweep's message templates. -/
def moneyStr (m : Money) : String :=
  toString m.value ++ " " ++ m.currency

/-- Enqueue one alert from inside the sweep, supplying fresh alert and
event identifiers from the counter. -/
def swQueue (params : QueueAlertParams) (s : SweepState) (now : Int) : SweepState :=
  let r := queueAlert params ("alert-" ++ toString s.fresh)
    ("event-" ++ toString s.fresh) now s.queue
  { s with queue := r.1, fresh := s.fresh + 1 }

/-- DateCheckerWorker.updateOverdueStatus: promote every PENDING AR past
its due date to OVERDUE via the change-status command; a failure on one
AR is caught and the loop continues. -/
def updateOverdueStatus (today : Int) (st : SweepState) : SweepState :=
  (findOverdue st.cmd.ars today).foldl
    (fun s ar =>
      let dto : ChangeARStatusDTO :=
        { ar_id := ar.ar_id
          new_status := ARStatus.OVERDUE
          reason := "Due date passed: " ++ dedupDayStr ar.due_date
          actor := { type := ActorType.SYSTEM } }
      match changeARStatus dto ("sweep-ev-" ++ toString s.fresh) today s.cmd with
      | Except.ok cmd' => { s with cmd := cmd', fresh := s.fresh + 1 }
      | Except.error _ => { s with fresh := s.fresh + 1 })
    st

/-- DateCheckerWorker.checkDueARs: for every PENDING AR due today,
enqueue a DUE alert to the customer and a DUE visibility copy to the
manager, each guarded by a per-day dedup key. -/
def checkDueARs (today : Int) (st : SweepState) : SweepState :=
  (findByDueDateAndStatus st.cmd.ars today ARStatus.PENDING).foldl
    (fun s ar =>
      let dueDateStr := dedupDayStr ar.due_date
      let s1 :=
        match ar.customer_chat_id with
        | some chat =>
          swQueue
            { ar_id := ar.ar_id
              alert_type := AlertType.DUE
              target_type := TargetType.CUSTOMER
              delivery_chat_id := chat
              priority := some 3
              dedup_key := some (ar.ar_id ++ "_DUE_CUSTOMER_" ++ dueDateStr)
              message_template := "Payment Reminder: Your invoice for "
                ++ moneyStr ar.amount ++ " is due today. Customer: " ++ ar.customer_name
              message_data := [("ar_id", ar.ar_id), ("customer_name", ar.customer_name),
                ("amount", moneyStr ar.amount), ("due_date", dueDateStr)] }
            s today
        | none => s
      match ar.manager_chat_id with
      | some chat =>
        swQueue
          { ar_id := ar.ar_id
            alert_type := AlertType.DUE
            target_type := TargetType.MANAGER
            delivery_chat_id := chat
            priority := some 2
            dedup_key := some (ar.ar_id ++ "_DUE_MANAGER_" ++ dueDateStr)
            message_template := "Manager Alert: AR " ++ ar.ar_id ++ " for "
              ++ ar.customer_name ++ " is due today (" ++ moneyStr ar.amount ++ ")"
            message_data := [("ar_id", ar.ar_id), ("customer_name", ar.customer_name),
              ("amount", moneyStr ar.amount)] }
          s1 today
      | none => s1)
    st

/-- DateCheckerWorker.checkOverdueARs: over findOverdue, compute the
floored day count since the due date; at exactly 7 days enqueue the
single OVERDUE customer warning (day-suffixed dedup key); within the
4-to-7-day window enqueue ESCALATION alerts to customer and manager,
keyed by due date without a day suffix. -/
def checkOverdueARs (today : Int) (st : SweepState) : SweepState :=
  (findOverdue st.cmd.ars today).foldl
    (fun s ar =>
      let daysOverdue : Int := Int.fdiv (today - ar.due_date) MS_PER_DAY
      let dueDateStr := dedupDayStr ar.due_date
      let s1 :=
        if daysOverdue == 7 then
          match ar.customer_chat_id with
          | some chat =>
            swQueue
              { ar_id := ar.ar_id
                alert_type := AlertType.OVERDUE
                target_type := TargetType.CUSTOMER
                delivery_chat_id := chat
                priority := some 4
                dedup_key := some (ar.ar_id ++ "_OVERDUE_CUSTOMER_" ++ dueDateStr ++ "_D7")
                message_template := "Payment Overdue: Your payment of "
                  ++ moneyStr ar.amount ++ " is now 7 days overdue. Please settle immediately."
                message_data := [("home_id", ar.home_id), ("customer_name", ar.customer_name),
                  ("amount", moneyStr ar.amount), ("due_date", dueDateStr), ("days_overdue", "7")] }
              s today
          | none => s
        else s
      if 4 ≤ daysOverdue && daysOverdue ≤ 7 then
        let s2 :=
          match ar.customer_chat_id with
          | some chat =>
            swQueue
              { ar_id := ar.ar_id
                alert_type := AlertType.ESCALATION
                target_type := TargetType.CUSTOMER
                delivery_chat_id := chat
                priority := some 5
                dedup_key := some (ar.ar_id ++ "_ESCALATION_CUSTOMER_" ++ dueDateStr)
                message_template := "Payment Overdue: Your payment of "
                  ++ moneyStr ar.amount ++ " is now " ++ toString daysOverdue
                  ++ " days overdue. Please settle immediately."
                message_data := [("home_id", ar.home_id), ("customer_name", ar.customer_name),
                  ("amount", moneyStr ar.amount), ("due_date", dueDateStr),
                  ("days_overdue", toString daysOverdue)] }
              s1 today
          | none => s1
        match ar.manager_chat_id with
        | some chat =>
          swQueue
            { ar_id := ar.ar_id
              alert_type := AlertType.ESCALATION
              target_type := TargetType.MANAGER
              delivery_chat_id := chat
              priority := some 5
              dedup_key := some (ar.ar_id ++ "_ESCALATION_MANAGER_" ++ dueDateStr)
              message_template := "ESCALATION Alert: AR " ++ ar.ar_id ++ " for "
                ++ ar.customer_name ++ " (" ++ ar.home_id ++ ") is "
                ++ toString daysOverdue ++ " days overdue (" ++ moneyStr ar.amount ++ ")"
              message_data := [("ar_id", ar.ar_id), ("home_id", ar.home_id),
                ("customer_name", ar.customer_name), ("amount", moneyStr ar.amount),
                ("days_overdue", toString daysOverdue)] }
            s2 today
        | none => s2
      else s1)
    st

/-- The default pre-alert lead time (config.prealertDays, default 3). -/
def PREALERT_DAYS : Int := 3

/-- DateCheckerWorker.checkPreAlerts: for every PENDING AR due in
exactly PREALERT_DAYS days, enqueue a PRE_ALERT to the customer. -/
def checkPreAlerts (today : Int) (st : SweepState) : SweepState :=
  let targetDate := today + PREALERT_DAYS * MS_PER_DAY
  (findByDueDateAndStatus st.cmd.ars targetDate ARStatus.PENDING).foldl
    (fun s ar =>
      let dueDateStr := dedupDayStr ar.due_date
      match ar.customer_chat_id with
      | some chat =>
        swQueue
          { ar_id := ar.ar_id
            alert_type := AlertType.PRE_ALERT
            target_type := TargetType.CUSTOMER
            delivery_chat_id := chat
            priority := some 2
            dedup_key := some (ar.ar_id ++ "_PRE_ALERT_CUSTOMER_" ++ dueDateStr)
            message_template := "Payment Reminder: Your payment of "
              ++ moneyStr ar.amount ++ " is due in " ++ toString PREALERT_DAYS
              ++ " days (" ++ dueDateStr ++ ")."
            message_data := [("amount", moneyStr ar.amount),
              ("days", toString PREALERT_DAYS), ("due_date", dueDateStr)] }
          s today
      | none => s)
    st

/-- DateCheckerWorker.run: normalize today to midnight, promote overdue
statuses first, then run the due-today, overdue/escalation and
pre-alert checks in that order. -/
def runSweep (now : Int) (st : SweepState) : SweepState :=
  let today := toMidnightMs now
  checkPreAlerts today
    (checkOverdueARs today
      (checkDueARs today
        (updateOverdueStatus today st)))

/-! ## Calendar month arithmetic (utils/date-helpers.ts)

Civil calendar dates with the JavaScript conventions: `month` is
0-based (0 = January) and `day` is 1-based. -/

/-- Gregorian leap-year rule, as used by the JavaScript Date object. -/
def isLeapYear (y : Int) : Bool :=
  (y % 4 == 0 && y % 100 != 0) || y % 400 == 0

/-- Length in days of 0-based month `m` of year `y`. -/
def daysInMonth (y : Int) (m : Nat) : Nat :=
  if m == 1 then (if isLeapYear y then 29 else 28)
  else if m == 3 || m == 5 || m == 8 || m == 10 then 30
  else 31

/-- Civil calendar date, JavaScript conventions (0-based month). -/
structure CalDate where
  year : Int
  month : Nat
  day : Nat
deriving DecidableEq, Repr

/-- Strict calendar order (what comparing the underlying epoch times
gives for valid civil dates). -/
def calLt (a b : CalDate) : Bool :=
  a.year < b.year
    || (a.year == b.year && (a.month < b.month
        || (a.month == b.month && a.day < b.day)))

/-- JavaScript `d.setMonth(m)`: the month index (possibly out of range)
is folded into the year, then a day-of-month overflow rolls into the
following month. Since the day is at most 31 and every month has at
least 28 days, the roll crosses at most one month boundary. -/
def jsSetMonth (d : CalDate) (m : Int) : CalDate :=
  let y := d.year + Int.fdiv m 12
  let m' := (Int.emod m 12).toNat
  if d.day ≤ daysInMonth y m' then
    { year := y, month := m', day := d.day }
  else
    let d2 := d.day - daysInMonth y m'
    if m' == 11 then { year := y + 1, month := 0, day := d2 }
    else { year := y, month := m' + 1, day := d2 }

/-- JavaScript `d.setDate(0)`: move to the last day of the previous
month. -/
def jsSetDateZero (d : CalDate) : CalDate :=
  if d.month == 0 then
    { year := d.year - 1, month := 11, day := daysInMonth (d.year - 1) 11 }
  else
    { year := d.year, month := d.month - 1, day := daysInMonth d.year (d.month - 1) }

/-- addMonths (src utils/date-helpers.ts): add months with JavaScript
setMonth, then clamp to the end of the target month if the day-of-month
rolled over. -/
def addMonths (date : CalDate) (months : Int) : CalDate :=
  let day := date.day
  let result := jsSetMonth date ((date.month : Int) + months)
  if result.day ≠ day then jsSetDateZero result else result

/-! ## Monthly billing commands on calendar due dates

The next-month AR creation command and the payment-verification flow
that triggers it, embedded over snapshots whose dates are civil
calendar dates (the fields the month arithmetic operates on). The
durable event append and replay initialization behind the create-AR
command are modelled separately above; here creating an AR inserts the
PENDING snapshot it materializes. -/

/-- AR snapshot as seen by the monthly-billing commands. -/
structure ARRec where
  ar_id : String
  home_id : String
  zone : String
  customer_name : String
  amount : Money
  invoice_date : CalDate
  due_date : CalDate
  status : ARStatus
  paid_date : Option CalDate := none
  assigned_sales_id : Option String := none
  customer_chat_id : Option String := none
  manager_chat_id : Option String := none
deriving DecidableEq, Repr

/-- Snapshot store of the monthly-billing model. -/
structure BillingState where
  ars : List ARRec
deriving DecidableEq, Repr

/-- IARRepository.findById over the billing snapshots. -/
def findRecById (ars : List ARRec) (ar_id : String) : Option ARRec :=
  ars.find? (fun a => a.ar_id == ar_id)

/-- IARRepository.findByHomeIdAndDueDate: the snapshot of the given
billable entity due on the given date, used as the duplicate guard of
monthly AR auto-creation. -/
def findByHomeIdAndDueDate (ars : List ARRec) (home_id : String)
    (due_date : CalDate) : Option ARRec :=
  ars.find? (fun a => a.home_id == home_id && a.due_date == due_date)

/-- CreateARDTO (src create-ar.command.ts, current home_id/zone shape). -/
structure CreateARDTO where
  home_id : String
  zone : String
  customer_name : String
  amount : Money
  invoice_date : CalDate
  due_date : CalDate
  assigned_sales_id : Option String := none
  customer_chat_id : Option String := none
  manager_chat_id : Option String := none
deriving DecidableEq, Repr

/-- CreateARCommand.validateInput: first failing check's message. -/
def validateCreateAR (dto : CreateARDTO) : Option String :=
  if strTrim dto.customer_name == "" then
    some "customer_name is required"
  else if dto.amount.value ≤ 0 then
    some "amount must be greater than 0"
  else if strTrim dto.amount.currency == "" then
    some "currency is required"
  else if calLt dto.due_date dto.invoice_date then
    some "due_date cannot be before invoice_date"
  else
    none

/-- The PENDING snapshot materialized for a newly created AR (the
result of replaying the single AR_CREATED event the create command
appends). -/
def newARRec (dto : CreateARDTO) (ar_id : String) : ARRec :=
  { ar_id := ar_id
    home_id := dto.home_id
    zone := dto.zone
    customer_name := dto.customer_name
    amount := dto.amount
    invoice_date := dto.invoice_date
    due_date := dto.due_date
    status := ARStatus.PENDING
    assigned_sales_id := dto.assigned_sales_id
    customer_chat_id := dto.customer_chat_id
    manager_chat_id := dto.manager_chat_id }

/-- CreateARCommand.execute: validate, then append the AR_CREATED event
and save the snapshot replayed from it — a PENDING snapshot with the
DTO's fields (see replayEvents/initializeFromCreatedEvent above). -/
def createAR (dto : CreateARDTO) (ar_id : String) (st : BillingState) :
    Except String (String × BillingState) :=
  match validateCreateAR dto with
  | some msg => Except.error msg
  | none => Except.ok (ar_id, { ars := st.ars ++ [newARRec dto ar_id] })

/-- CreateNextMonthARCommand.execute (src
create-next-month-ar.command.ts): load the paid AR, compute next
month's due date with addMonths, skip creation when an AR of the same
billable entity already exists for that due date, otherwise create the
next billing period's AR with the same recurring terms. -/
def createNextMonthAR (paid_ar_id : String) (payment_date : CalDate)
    (freshId : String) (st : BillingState) :
    Except String (String × BillingState) :=
  match findRecById st.ars paid_ar_id with
  | none => Except.error ("Paid AR not found: " ++ paid_ar_id)
  | some paidAR =>
    let nextDueDate := addMonths paidAR.due_date 1
    match findByHomeIdAndDueDate st.ars paidAR.home_id nextDueDate with
    | some existing => Except.ok (existing.ar_id, st)
    | none =>
      createAR
        { home_id := paidAR.home_id
          zone := paidAR.zone
          customer_name := paidAR.customer_name
          amount := paidAR.amount
          invoice_date := payment_date
          due_date := nextDueDate
          assigned_sales_id := paidAR.assigned_sales_id
          customer_chat_id := paidAR.customer_chat_id
          manager_chat_id := paidAR.manager_chat_id }
        freshId st

/-- Payment-verification input of the billing model. -/
structure BVerifyPaymentDTO where
  ar_id : String
  paid_amount : Money
  payment_date : CalDate
  verification_method : String
  verified_by : String
deriving DecidableEq, Repr

/-- VerifyPaymentCommand.execute over the billing snapshots: reject an
already-paid AR, otherwise persist the PAID snapshot (the durable
PAYMENT_VERIFIED append is modelled in the command layer above) and
invoke next-month AR creation, whose failure is caught and does not
undo the verification. -/
def billingVerifyPayment (dto : BVerifyPaymentDTO) (nextFreshId : String)
    (st : BillingState) : Except String BillingState :=
  match findRecById st.ars dto.ar_id with
  | none => Except.error ("AR " ++ dto.ar_id ++ " not found")
  | some ar =>
    if ar.status == ARStatus.PAID then
      Except.error ("AR " ++ dto.ar_id ++ " is already marked as paid")
    else
      let st' : BillingState :=
        { ars := st.ars.map (fun a =>
            if a.ar_id == dto.ar_id then
              { a with status := ARStatus.PAID, paid_date := some dto.payment_date }
            else a) }
      match createNextMonthAR dto.ar_id dto.payment_date nextFreshId st' with
      | Except.ok r => Except.ok r.2
      | Except.error _ => Except.ok st'

/-! ## Statement helpers and concrete fixtures -/

/-- The bookkeeping-only part of applyEvent (the `updated` object the
source builds before switching on the event kind). -/
def bookkeepingUpdate (state : ARState) (event : AREvent) : ARState :=
  { state with
    last_event_id := event.event_id
    last_event_at := event.timestamp
    event_count := state.event_count + 1 }

/-- Kinds the AR projection ignores: FOLLOW_UP_LOGGED, a repeated
AR_CREATED, the alert lifecycle kinds (the `default` branch of the
source switch). -/
def kindIgnoredByProjection : AREventKind → Bool
  | .statusChanged _ _ _ => false
  | .paymentVerified _ _ _ _ => false
  | .dueDateChanged _ _ _ => false
  | _ => true

/-- Number of persisted alerts carrying a given deduplication key. -/
def countKey (alerts : List Alert) (k : String) : Nat :=
  alerts.countP (fun a => a.dedup_key == some k)

/-- Example creation payload. -/
def exCreatedPayload : CreatedPayload :=
  { home_id := "B101"
    zone := "Sros"
    customer_name := "Alice"
    amount := { value := 1000, currency := "USD" }
    invoice_date := 0
    due_date := 30 * MS_PER_DAY
    assigned_sales_id := none
    customer_chat_id := some "chat-c"
    manager_chat_id := some "chat-m" }

/-- Example AR_CREATED event. -/
def exCreatedEvent : AREvent :=
  { event_id := "ev-1"
    ar_id := "AR-1"
    kind := AREventKind.arCreated exCreatedPayload
    timestamp := 0
    actor := { type := ActorType.SYSTEM }
    metaVersion := 1 }

/-- Example STATUS_CHANGED event. -/
def exStatusEvent : AREvent :=
  { event_id := "ev-2"
    ar_id := "AR-1"
    kind := AREventKind.statusChanged ARStatus.PENDING ARStatus.OVERDUE "late"
    timestamp := MS_PER_DAY
    actor := { type := ActorType.SYSTEM }
    metaVersion := 1 }

/-- Example PENDING snapshot. -/
def exPendingAR : ARState :=
  { ar_id := "AR-1"
    home_id := "B101"
    zone := "Sros"
    customer_name := "Alice"
    amount := { value := 1000, currency := "USD" }
    current_status := ARStatus.PENDING
    invoice_date := 0
    due_date := 30 * MS_PER_DAY
    customer_chat_id := some "chat-c"
    manager_chat_id := some "chat-m"
    last_event_id := "ev-1"
    last_event_at := 0
    event_count := 1
    version := 1 }

/-- Example PAID snapshot. -/
def exPaidAR : ARState :=
  { exPendingAR with current_status := ARStatus.PAID, paid_date := some (31 * MS_PER_DAY) }

/-- Example command-layer state holding the PENDING snapshot. -/
def exCmdState : CmdState :=
  { events := [exCreatedEvent], ars := [exPendingAR] }

/-- Example change-status request moving the AR to OVERDUE. -/
def exChangeDTO : ChangeARStatusDTO :=
  { ar_id := "AR-1"
    new_status := ARStatus.OVERDUE
    reason := "Due date passed"
    actor := { type := ActorType.SYSTEM } }

/-- Example change-status request restating the current status. -/
def exChangeSameDTO : ChangeARStatusDTO :=
  { exChangeDTO with new_status := ARStatus.PENDING }

/-- Example payment-verification request. -/
def exVerifyDTO : VerifyPaymentDTO :=
  { ar_id := "AR-1"
    paid_amount := { value := 1000, currency := "USD" }
    payment_date := 31 * MS_PER_DAY
    verification_method := "MANUAL"
    verified_by := "mgr-1" }

/-- Example enqueue request carrying a deduplication key. -/
def exQueueParams1 : QueueAlertParams :=
  { ar_id := "AR-1"
    alert_type := AlertType.DUE
    target_type := TargetType.CUSTOMER
    delivery_chat_id := "chat-c"
    priority := some 3
    dedup_key := some "AR-1_DUE_CUSTOMER_30"
    message_template := "due today"
    message_data := [] }

/-- A second enqueue request with the same deduplication key. -/
def exQueueParams2 : QueueAlertParams :=
  { exQueueParams1 with target_type := TargetType.MANAGER, delivery_chat_id := "chat-m" }

/-- Example queued alert after one delivery attempt. -/
def exAlertAttempt1 : Alert :=
  { alert_id := "alert-1"
    ar_id := "AR-1"
    dedup_key := some "AR-1_DUE_CUSTOMER_30"
    alert_type := AlertType.DUE
    target_type := TargetType.CUSTOMER
    priority := 3
    delivery_address := { platform := "TELEGRAM", chat_id := "chat-c" }
    message_template := "due today"
    message_data := []
    status := AlertStatus.PROCESSING
    attempts := 1
    max_attempts := 3
    scheduled_for := 0
    triggered_by_event_id := "" }

/-- Sweep fixture: a PENDING AR due at the day-0 midnight, with both
delivery addresses present. -/
def sweepAR : ARState :=
  { exPendingAR with due_date := 0 }

/-- Sweep fixture: initial sweep state holding only that AR. -/
def sweepState0 : SweepState :=
  { cmd := { events := [], ars := [sweepAR] }
    queue := { alerts := [], queuedEvents := [] }
    fresh := 0 }

/-- Sweep fixture: a "today" exactly 7 days after the AR's due date. -/
def sweepToday : Int := 7 * MS_PER_DAY

/-- Billing fixture: 2025-01-31 (JavaScript 0-based month). -/
def jan31 : CalDate := { year := 2025, month := 0, day := 31 }

/-- Billing fixture: 2025-02-28. -/
def feb28 : CalDate := { year := 2025, month := 1, day := 28 }

/-- Billing fixture: the scenario AR (1000 USD, invoiced 2025-01-01,
due 2025-01-31). -/
def scenAR : ARRec :=
  { ar_id := "AR-1"
    home_id := "B101"
    zone := "Sros"
    customer_name := "Alice"
    amount := { value := 1000, currency := "USD" }
    invoice_date := { year := 2025, month := 0, day := 1 }
    due_date := jan31
    status := ARStatus.PENDING }

/-- Billing fixture: initial store holding only the scenario AR. -/
def scenBilling0 : BillingState := { ars := [scenAR] }

/-- Billing fixture: the scenario payment-verification request. -/
def scenVerifyDTO : BVerifyPaymentDTO :=
  { ar_id := "AR-1"
    paid_amount := { value := 1000, currency := "USD" }
    payment_date := jan31
    verification_method := "MANUAL"
    verified_by := "mgr-1" }

/-- Billing fixture: expected store after the scenario verification —
the original AR PAID with its paid date set, plus the auto-created
next-month AR due 2025-02-28. -/
def scenBilling1 : BillingState :=
  { ars :=
      [{ scenAR with status := ARStatus.PAID, paid_date := some jan31 },
       { ar_id := "AR-2"
         home_id := "B101"
         zone := "Sros"
         customer_name := "Alice"
         amount := { value := 1000, currency := "USD" }
         invoice_date := jan31
         due_date := feb28
         status := ARStatus.PENDING }] }

/-! ## Theorems -/

/-- C10: the public isOverdue helper returns false for every PAID or
WRITTEN_OFF snapshot regardless of the supplied current date and due
date; for the other statuses it returns true exactly when the current
date normalized to midnight is strictly after the due date normalized
to midnight. -/
theorem C10_isOverdue_status_and_midnight (ar : ARState) (currentDate : Int) :
    ((ar.current_status = ARStatus.PAID ∨ ar.current_status = ARStatus.WRITTEN_OFF) →
      isOverdue ar currentDate = false) ∧
    (ar.current_status ≠ ARStatus.PAID → ar.current_status ≠ ARStatus.WRITTEN_OFF →
      (isOverdue ar currentDate = true ↔
        toMidnightMs ar.due_date < toMidnightMs currentDate)) := by
  constructor
  · rintro (h | h) <;> simp [isOverdue, h]
  · intro h1 h2
    simp [isOverdue, h1, h2]

/-- C10 witness: evaluated on a PAID snapshot and on a PENDING one. -/
theorem C10_witness :
    isOverdue exPaidAR (31 * MS_PER_DAY) = false ∧
    (isOverdue exPendingAR (31 * MS_PER_DAY) = true ↔
      toMidnightMs exPendingAR.due_date < toMidnightMs (31 * MS_PER_DAY)) :=
  ⟨(C10_isOverdue_status_and_midnight exPaidAR (31 * MS_PER_DAY)).1 (Or.inl rfl),
   (C10_isOverdue_status_and_midnight exPendingAR (31 * MS_PER_DAY)).2
     (by decide) (by decide)⟩

/-- C4: replay is a pure function of its input (two calls on the same
sequence are the same term, and a valid sequence yields a uniquely
determined ok snapshot), while an empty sequence or one whose first
event is not AR_CREATED fails with the invalid-sequence errors. -/
theorem C4_replay_pure_function (events : List AREvent) :
    (replayEvents events = replayEvents events) ∧
    (∀ (p : CreatedPayload) (e : AREvent) (rest : List AREvent),
      e.kind = AREventKind.arCreated p →
      replayEvents (e :: rest) =
        Except.ok (rest.foldl applyEvent (initializeFromCreatedEvent e p))) ∧
    (replayEvents [] = Except.error "Cannot replay from empty event list") ∧
    (∀ (e : AREvent) (rest : List AREvent), e.kind.isCreated = false →
      replayEvents (e :: rest) = Except.error "First event must be AR_CREATED") := by
  refine ⟨rfl, ?_, rfl, ?_⟩
  · intro p e rest hk
    simp [replayEvents, hk]
  · intro e rest hk
    cases h : e.kind
    all_goals simp [replayEvents, AREventKind.isCreated, h] at hk ⊢

/-- C4 witness: a singleton created sequence replays ok; a sequence
headed by a STATUS_CHANGED event is rejected. -/
theorem C4_witness :
    replayEvents [exCreatedEvent] =
      Except.ok (List.foldl applyEvent
        (initializeFromCreatedEvent exCreatedEvent exCreatedPayload) []) ∧
    replayEvents [exStatusEvent] = Except.error "First event must be AR_CREATED" :=
  ⟨(C4_replay_pure_function [exCreatedEvent]).2.1 exCreatedPayload exCreatedEvent [] rfl,
   (C4_replay_pure_function [exStatusEvent]).2.2.2 exStatusEvent [] rfl⟩

/-- C5: the fold initializes status to PENDING regardless of payload,
every folded event updates the bookkeeping fields, and the per-kind
transitions are exactly: STATUS_CHANGED overwrites status,
PAYMENT_VERIFIED forces PAID and sets the paid date, DUE_DATE_CHANGED
overwrites the due date, and FOLLOW_UP_LOGGED together with all
unrecognized kinds leaves the business fields unchanged. -/
theorem C5_fold_transitions :
    (∀ (e : AREvent) (p : CreatedPayload),
      (initializeFromCreatedEvent e p).current_status = ARStatus.PENDING ∧
      (initializeFromCreatedEvent e p).event_count = 1) ∧
    (∀ (s : ARState) (e : AREvent),
      (applyEvent s e).last_event_id = e.event_id ∧
      (applyEvent s e).last_event_at = e.timestamp ∧
      (applyEvent s e).event_count = s.event_count + 1) ∧
    (∀ (s : ARState) (e : AREvent) (old new : ARStatus) (r : String),
      e.kind = AREventKind.statusChanged old new r →
      applyEvent s e = { bookkeepingUpdate s e with current_status := new }) ∧
    (∀ (s : ARState) (e : AREvent) (amt : Money) (pd : Int) (vm vb : String),
      e.kind = AREventKind.paymentVerified amt pd vm vb →
      applyEvent s e =
        { bookkeepingUpdate s e with
          current_status := ARStatus.PAID, paid_date := some pd }) ∧
    (∀ (s : ARState) (e : AREvent) (od nd : Int) (r : String),
      e.kind = AREventKind.dueDateChanged od nd r →
      applyEvent s e = { bookkeepingUpdate s e with due_date := nd }) ∧
    (∀ (s : ARState) (e : AREvent), kindIgnoredByProjection e.kind = true →
      applyEvent s e = bookkeepingUpdate s e) := by
  refine ⟨fun e p => ⟨rfl, rfl⟩, ?_, ?_, ?_, ?_, ?_⟩
  · intro s e
    cases h : e.kind <;> simp [applyEvent, h]
  · intro s e old new r hk
    simp [applyEvent, bookkeepingUpdate, hk]
  · intro s e amt pd vm vb hk
    simp [applyEvent, bookkeepingUpdate, hk]
  · intro s e od nd r hk
    simp [applyEvent, bookkeepingUpdate, hk]
  · intro s e hk
    cases h : e.kind
    all_goals simp [applyEvent, bookkeepingUpdate, kindIgnoredByProjection, h] at hk ⊢

/-- C5 witness: applying a STATUS_CHANGED event to the example snapshot
overwrites its status and bumps the bookkeeping fields. -/
theorem C5_witness :
    applyEvent exPendingAR exStatusEvent =
      { bookkeepingUpdate exPendingAR exStatusEvent with
        current_status := ARStatus.OVERDUE } :=
  C5_fold_transitions.2.2.1 exPendingAR exStatusEvent
    ARStatus.PENDING ARStatus.OVERDUE "late" rfl

/-- C9: appending an event whose identity is already stored returns the
log unchanged as a success; a second append of the same event after a
first one leaves the log unchanged; an infrastructure error propagates
to the caller. -/
theorem C9_append_duplicate_absorbed (store : List AREvent) (e : AREvent) :
    (store.any (fun d => d.event_id == e.event_id) = true →
      eventStoreAppend none store e = Except.ok store) ∧
    (∀ store', eventStoreAppend none store e = Except.ok store' →
      eventStoreAppend none store' e = Except.ok store') ∧
    (∀ msg, eventStoreAppend (some msg) store e = Except.error msg) := by
  refine ⟨?_, ?_, fun msg => rfl⟩
  · intro h
    simp [eventStoreAppend, h]
  · intro store' h
    by_cases hdup : store.any (fun d => d.event_id == e.event_id) = true
    · simp [eventStoreAppend, hdup] at h
      subst h
      simp [eventStoreAppend, hdup]
    · simp [eventStoreAppend, hdup] at h
      subst h
      simp [eventStoreAppend]

/-- C9 witness: a duplicate append over a one-event log is absorbed, a
second append after a fresh one changes nothing, and an unavailable
store propagates its error. -/
theorem C9_witness :
    eventStoreAppend none [exCreatedEvent] exCreatedEvent = Except.ok [exCreatedEvent] ∧
    eventStoreAppend none [] exCreatedEvent = Except.ok [exCreatedEvent] ∧
    eventStoreAppend none [exCreatedEvent] exCreatedEvent = Except.ok [exCreatedEvent] ∧
    eventStoreAppend (some "storage unavailable") [] exCreatedEvent =
      Except.error "storage unavailable" :=
  ⟨(C9_append_duplicate_absorbed [exCreatedEvent] exCreatedEvent).1 (by decide),
   rfl,
   (C9_append_duplicate_absorbed [] exCreatedEvent).2.1 [exCreatedEvent] rfl,
   (C9_append_duplicate_absorbed [] exCreatedEvent).2.2 "storage unavailable"⟩


/-- C8: on delivery failure with attempts below the maximum, the alert
returns to QUEUED scheduled at the failure time plus
base_delay * 2^(attempts-1) — 5, 10, 20 minutes after attempts 1, 2, 3
for the five-minute base delay — and with attempts exhausted it becomes
terminally FAILED; in both branches an ALERT_FAILED audit event is
produced and the delivery error is re-surfaced to the poller. -/
theorem C8_retry_backoff (a : Alert) (msg : String) (now : Int) :
    (a.attempts < a.max_attempts →
      handleDeliveryFailure a msg now =
        ({ a with
            error := some msg
            status := AlertStatus.QUEUED
            scheduled_for := now + DEFAULT_BASE_DELAY_MS * 2 ^ (a.attempts - 1) },
         { alert_id := a.alert_id, failed_at := now, error := msg, attempts := a.attempts })) ∧
    (¬ a.attempts < a.max_attempts →
      handleDeliveryFailure a msg now =
        ({ a with
            error := some msg
            status := AlertStatus.FAILED
            failed_at := some now },
         { alert_id := a.alert_id, failed_at := now, error := msg, attempts := a.attempts })) ∧
    (a.attempts = 1 → getNextRetryTime a now DEFAULT_BASE_DELAY_MS = now + 5 * 60 * 1000) ∧
    (a.attempts = 2 → getNextRetryTime a now DEFAULT_BASE_DELAY_MS = now + 10 * 60 * 1000) ∧
    (a.attempts = 3 → getNextRetryTime a now DEFAULT_BASE_DELAY_MS = now + 20 * 60 * 1000) ∧
    ((deliverAlert (Except.error msg) a now).surfacedError = some msg ∧
     (deliverAlert (Except.error msg) a now).failedAudit =
       some { alert_id := a.alert_id, failed_at := now, error := msg, attempts := a.attempts + 1 } ∧
     (deliverAlert (Except.error msg) a now).alert.attempts = a.attempts + 1) := by
  refine ⟨?_, ?_, ?_, ?_, ?_, ?_, ?_, ?_⟩
  · intro h
    simp [handleDeliveryFailure, canRetry, getNextRetryTime, h]
  · intro h
    simp [handleDeliveryFailure, canRetry, getNextRetryTime, h]
  · intro h
    simp [getNextRetryTime, DEFAULT_BASE_DELAY_MS, h]
  · intro h
    simp [getNextRetryTime, DEFAULT_BASE_DELAY_MS, h]
  · intro h
    simp [getNextRetryTime, DEFAULT_BASE_DELAY_MS, h]
  · simp [deliverAlert]
  · by_cases h : a.attempts + 1 < a.max_attempts <;>
      simp [deliverAlert, handleDeliveryFailure, canRetry, h]
  · by_cases h : a.attempts + 1 < a.max_attempts <;>
      simp [deliverAlert, handleDeliveryFailure, canRetry, h]

/-- C8 witness: the retry branch and the 5-minute first backoff,
evaluated on a concrete alert after its first attempt. -/
theorem C8_witness :
    handleDeliveryFailure exAlertAttempt1 "telegram timeout" (10 * MS_PER_DAY) =
      ({ exAlertAttempt1 with
          error := some "telegram timeout"
          status := AlertStatus.QUEUED
          scheduled_for := 10 * MS_PER_DAY
            + DEFAULT_BASE_DELAY_MS * 2 ^ (exAlertAttempt1.attempts - 1) },
       { alert_id := exAlertAttempt1.alert_id, failed_at := 10 * MS_PER_DAY,
         error := "telegram timeout", attempts := exAlertAttempt1.attempts }) ∧
    getNextRetryTime exAlertAttempt1 0 DEFAULT_BASE_DELAY_MS = 0 + 5 * 60 * 1000 :=
  ⟨(C8_retry_backoff exAlertAttempt1 "telegram timeout" (10 * MS_PER_DAY)).1 (by decide),
   (C8_retry_backoff exAlertAttempt1 "telegram timeout" 0).2.2.1 rfl⟩

/-- C6: change-status with the AR's current status appends no event and
returns the state (snapshot and version included) unchanged; with a
different valid status it appends exactly one STATUS_CHANGED event and
updates the snapshot's status. -/
theorem C6_status_noop_or_single_event (dto : ChangeARStatusDTO) (eid : String)
    (now : Int) (st : CmdState) (ar : ARState)
    (hval : validateChangeStatus dto = none)
    (hfind : findById st.ars dto.ar_id = some ar) :
    (ar.current_status = dto.new_status → changeARStatus dto eid now st = Except.ok st) ∧
    (ar.current_status ≠ dto.new_status →
      changeARStatus dto eid now st =
        Except.ok { events := st.events ++ [statusChangedEvent dto ar.current_status eid now]
                    ars := updateStatus st.ars dto.ar_id dto.new_status }) := by
  constructor
  · intro h
    simp [changeARStatus, hval, hfind, h]
  · intro h
    simp [changeARStatus, hval, hfind, h]

/-- C6 witness: a same-status request is a no-op on the example state; a
PENDING-to-OVERDUE request appends one event and updates the status. -/
theorem C6_witness :
    changeARStatus exChangeSameDTO "ev-2" MS_PER_DAY exCmdState = Except.ok exCmdState ∧
    changeARStatus exChangeDTO "ev-2" MS_PER_DAY exCmdState =
      Except.ok
        { events := exCmdState.events ++
            [statusChangedEvent exChangeDTO exPendingAR.current_status "ev-2" MS_PER_DAY]
          ars := updateStatus exCmdState.ars exChangeDTO.ar_id exChangeDTO.new_status } :=
  ⟨(C6_status_noop_or_single_event exChangeSameDTO "ev-2" MS_PER_DAY exCmdState exPendingAR
      (by decide) (by decide)).1 rfl,
   (C6_status_noop_or_single_event exChangeDTO "ev-2" MS_PER_DAY exCmdState exPendingAR
      (by decide) (by decide)).2 (by decide)⟩

/-- C7: verify-payment on a PAID AR fails with the already-paid error
(no event is appended since the command errors before any write); when
it proceeds and the injected create-next-AR routine fails, the command
still succeeds with the durable state, which contains the appended
PAYMENT_VERIFIED event and the PAID snapshot with its paid date. -/
theorem C7_verify_payment_guard_and_side_effect
    (nextAR : CmdState → Except String CmdState) (dto : VerifyPaymentDTO)
    (eid : String) (now : Int) (st : CmdState) (ar : ARState)
    (hval : validateVerifyPayment dto = none)
    (hfind : findById st.ars dto.ar_id = some ar) :
    (ar.current_status = ARStatus.PAID →
      verifyPayment nextAR dto eid now st =
        Except.error ("AR " ++ dto.ar_id ++ " is already marked as paid")) ∧
    (ar.current_status ≠ ARStatus.PAID →
      ∀ msg, nextAR (paidState dto eid now st ar) = Except.error msg →
        verifyPayment nextAR dto eid now st = Except.ok (paidState dto eid now st ar)) ∧
    ((paidState dto eid now st ar).events = st.events ++ [paymentVerifiedEvent dto eid now]) ∧
    ({ ar with
        current_status := ARStatus.PAID
        paid_date := some dto.payment_date
        last_event_id := eid
        last_event_at := now
        event_count := ar.event_count + 1
        version := ar.version + 1 } ∈ (paidState dto eid now st ar).ars) := by
  refine ⟨?_, ?_, rfl, ?_⟩
  · intro h
    simp [verifyPayment, hval, hfind, h]
  · intro h msg hfail
    simp [verifyPayment, hval, hfind, h, hfail]
  · have hmem : ar ∈ st.ars := List.mem_of_find?_eq_some hfind
    have hany : st.ars.any (fun a => a.ar_id ==
        (({ ar with
            current_status := ARStatus.PAID
            paid_date := some dto.payment_date
            last_event_id := eid
            last_event_at := now
            event_count := ar.event_count + 1 } : ARState)).ar_id) = true := by
      refine List.any_eq_true.mpr ⟨ar, hmem, ?_⟩
      simp
    simp only [paidState, saveAR, hany, if_true]
    refine List.mem_map.mpr ⟨ar, hmem, ?_⟩
    simp

/-- C7 witness: evaluated on a PAID snapshot (rejected) and on a PENDING
one with a next-AR routine that always fails (payment preserved). -/
theorem C7_witness :
    verifyPayment (fun _ => Except.error "boom") exVerifyDTO "ev-2" (31 * MS_PER_DAY)
        { events := [exCreatedEvent], ars := [exPaidAR] } =
      Except.error ("AR " ++ exVerifyDTO.ar_id ++ " is already marked as paid") ∧
    verifyPayment (fun _ => Except.error "boom") exVerifyDTO "ev-2" (31 * MS_PER_DAY)
        exCmdState =
      Except.ok (paidState exVerifyDTO "ev-2" (31 * MS_PER_DAY) exCmdState exPendingAR) :=
  ⟨(C7_verify_payment_guard_and_side_effect (fun _ => Except.error "boom") exVerifyDTO
      "ev-2" (31 * MS_PER_DAY) { events := [exCreatedEvent], ars := [exPaidAR] } exPaidAR
      (by decide) (by decide)).1 rfl,
   (C7_verify_payment_guard_and_side_effect (fun _ => Except.error "boom") exVerifyDTO
      "ev-2" (31 * MS_PER_DAY) exCmdState exPendingAR
      (by decide) (by decide)).2.1 (by decide) "boom" rfl⟩


/-- C1: for two enqueue calls carrying the same non-null deduplication
key, at most one intent is ever persisted — starting from a queue
without the key, the first enqueue persists exactly one alert under it,
the second enqueue leaves the persisted alerts unchanged, and any
enqueue with that key preserves the at-most-one-per-key invariant. -/
theorem C1_dedup_enforced (st : QueueState) (p1 p2 : QueueAlertParams)
    (a1 e1 a2 e2 : String) (n1 n2 : Int) (k : String)
    (h1 : p1.dedup_key = some k) (h2 : p2.dedup_key = some k) :
    (countKey st.alerts k = 0 → countKey ((queueAlert p1 a1 e1 n1 st).1).alerts k = 1) ∧
    ((queueAlert p2 a2 e2 n2 (queueAlert p1 a1 e1 n1 st).1).1).alerts
        = ((queueAlert p1 a1 e1 n1 st).1).alerts ∧
    (∀ k', countKey st.alerts k' ≤ 1 →
      countKey ((queueAlert p1 a1 e1 n1 st).1).alerts k' ≤ 1) := by
  cases hf : findByDedupKey st.alerts k with
  | some ex =>
    have hff : st.alerts.find? (fun a => a.dedup_key == some k) = some ex := hf
    have hpred : (ex.dedup_key == some k) = true := by
      simpa using List.find?_some hff
    have hmem : ex ∈ st.alerts := List.mem_of_find?_eq_some hff
    have hq1 : (queueAlert p1 a1 e1 n1 st).1 = st := by
      simp [queueAlert, h1, hf]
    refine ⟨?_, ?_, ?_⟩
    · intro h0
      simp [countKey] at h0
      exact absurd (by simpa using hpred) (h0 ex hmem)
    · rw [hq1]
      simp [queueAlert, h2, hf, hq1]
    · intro k' hk
      rw [hq1]
      exact hk
  | none =>
    have hq1 : (queueAlert p1 a1 e1 n1 st).1 =
        { alerts := st.alerts ++ [buildAlert p1 a1 n1]
          queuedEvents := st.queuedEvents ++ [e1] } := by
      simp [queueAlert, h1, hf]
    refine ⟨?_, ?_, ?_⟩
    · intro h0
      rw [hq1]
      simp [countKey, List.countP_append, buildAlert, h1]
      simpa [countKey] using h0
    · have hfind2 : findByDedupKey (st.alerts ++ [buildAlert p1 a1 n1]) k =
          some (buildAlert p1 a1 n1) := by
        have hf' : st.alerts.find? (fun a => a.dedup_key == some k) = none := hf
        simp [findByDedupKey, List.find?_append, hf', buildAlert, h1]
      rw [hq1]
      simp [queueAlert, h2, hfind2]
    · intro k' hk
      rw [hq1]
      by_cases hkk : k' = k
      · subst hkk
        have h0 : countKey st.alerts k' = 0 := by
          have := List.find?_eq_none.mp hf
          simp [countKey, List.countP_eq_zero]
          intro a ha
          simpa using this a ha
        simp [countKey, List.countP_append, buildAlert, h1]
        simpa [countKey] using h0
      · have : ((buildAlert p1 a1 n1).dedup_key == some k') = false := by
          simp [buildAlert, h1, hkk]
          exact fun h => absurd h.symm hkk
        simp [countKey, List.countP_append] at hk ⊢
        simpa [this] using hk

/-- C1 witness: two concrete same-key enqueues on the empty queue
persist exactly one alert. -/
theorem C1_witness :
    countKey ((queueAlert exQueueParams1 "alert-0" "event-0" 0
        { alerts := [], queuedEvents := [] }).1).alerts "AR-1_DUE_CUSTOMER_30" = 1 ∧
    ((queueAlert exQueueParams2 "alert-1" "event-1" 5
        (queueAlert exQueueParams1 "alert-0" "event-0" 0
          { alerts := [], queuedEvents := [] }).1).1).alerts
      = ((queueAlert exQueueParams1 "alert-0" "event-0" 0
          { alerts := [], queuedEvents := [] }).1).alerts :=
  ⟨(C1_dedup_enforced { alerts := [], queuedEvents := [] } exQueueParams1 exQueueParams2
      "alert-0" "event-0" "alert-1" "event-1" 0 5 "AR-1_DUE_CUSTOMER_30" rfl rfl).1 rfl,
   (C1_dedup_enforced { alerts := [], queuedEvents := [] } exQueueParams1 exQueueParams2
      "alert-0" "event-0" "alert-1" "event-1" 0 5 "AR-1_DUE_CUSTOMER_30" rfl rfl).2.1⟩


/-- Result shape of a successful create-AR command: the fresh id is
returned and the PENDING snapshot is appended to the store. -/
theorem createAR_ok {dto : CreateARDTO} {ar_id : String} {st : BillingState}
    {r : String} {st' : BillingState}
    (h : createAR dto ar_id st = Except.ok (r, st')) :
    r = ar_id ∧ st' = { ars := st.ars ++ [newARRec dto ar_id] } := by
  unfold createAR at h
  cases hval : validateCreateAR dto with
  | some m =>
    rw [hval] at h
    simp at h
  | none =>
    rw [hval] at h
    simp at h
    exact ⟨h.1.symm, h.2.symm⟩

/-- C2: on the spec scenario (AR of 1000 USD, invoiced 2025-01-01, due
2025-01-31), a successful payment verification marks the AR PAID with
its paid date set and creates exactly one new AR for the same billable
entity, due 2025-02-28 (addMonths clamps Jan 31 + 1 month to the end of
February); re-invoking the next-AR routine on the resulting store
returns the existing AR unchanged, and in general a repeated invocation
of createNextMonthAR is a no-op on the store thanks to the
(home_id, due_date) duplicate guard. -/
theorem C2_next_month_clamped_and_guarded :
    addMonths jan31 1 = feb28 ∧
    billingVerifyPayment scenVerifyDTO "AR-2" scenBilling0 = Except.ok scenBilling1 ∧
    (findRecById scenBilling1.ars "AR-1").map ARRec.status = some ARStatus.PAID ∧
    (findRecById scenBilling1.ars "AR-1").bind ARRec.paid_date = some jan31 ∧
    scenBilling1.ars.length = 2 ∧
    (scenBilling1.ars.filter
      (fun a => a.home_id == "B101" && a.due_date == feb28)).length = 1 ∧
    createNextMonthAR "AR-1" jan31 "AR-3" scenBilling1 = Except.ok ("AR-2", scenBilling1) ∧
    (∀ (st : BillingState) (paid_id : String) (pd : CalDate) (f1 f2 r : String)
        (st' : BillingState),
      createNextMonthAR paid_id pd f1 st = Except.ok (r, st') →
      ∃ r2, createNextMonthAR paid_id pd f2 st' = Except.ok (r2, st')) := by
  refine ⟨by decide, rfl, by decide, by decide, by decide, by decide, rfl, ?_⟩
  intro st paid_id pd f1 f2 r st' h
  unfold createNextMonthAR at h ⊢
  cases hfind : findRecById st.ars paid_id with
  | none =>
    simp only [hfind] at h
    exact absurd h (by simp)
  | some paidAR =>
    simp only [hfind] at h
    cases hdup : findByHomeIdAndDueDate st.ars paidAR.home_id
        (addMonths paidAR.due_date 1) with
    | some ex =>
      simp only [hdup] at h
      obtain ⟨hr, hst⟩ : ex.ar_id = r ∧ st = st' := by simpa using h
      subst hst
      simp only [hfind, hdup]
      exact ⟨ex.ar_id, rfl⟩
    | none =>
      simp only [hdup] at h
      obtain ⟨hr, hst⟩ := createAR_ok h
      subst hst
      have hff : st.ars.find? (fun a => a.ar_id == paid_id) = some paidAR := hfind
      have hffd : st.ars.find?
          (fun a => a.home_id == paidAR.home_id
            && a.due_date == addMonths paidAR.due_date 1) = none := hdup
      have hfind' : findRecById
          (st.ars ++ [newARRec
            { home_id := paidAR.home_id
              zone := paidAR.zone
              customer_name := paidAR.customer_name
              amount := paidAR.amount
              invoice_date := pd
              due_date := addMonths paidAR.due_date 1
              assigned_sales_id := paidAR.assigned_sales_id
              customer_chat_id := paidAR.customer_chat_id
              manager_chat_id := paidAR.manager_chat_id } f1]) paid_id = some paidAR := by
        simp [findRecById, List.find?_append, hff]
      have hdup' : findByHomeIdAndDueDate
          (st.ars ++ [newARRec
            { home_id := paidAR.home_id
              zone := paidAR.zone
              customer_name := paidAR.customer_name
              amount := paidAR.amount
              invoice_date := pd
              due_date := addMonths paidAR.due_date 1
              assigned_sales_id := paidAR.assigned_sales_id
              customer_chat_id := paidAR.customer_chat_id
              manager_chat_id := paidAR.manager_chat_id } f1])
          paidAR.home_id (addMonths paidAR.due_date 1) =
          some (newARRec
            { home_id := paidAR.home_id
              zone := paidAR.zone
              customer_name := paidAR.customer_name
              amount := paidAR.amount
              invoice_date := pd
              due_date := addMonths paidAR.due_date 1
              assigned_sales_id := paidAR.assigned_sales_id
              customer_chat_id := paidAR.customer_chat_id
              manager_chat_id := paidAR.manager_chat_id } f1) := by
        simp [findByHomeIdAndDueDate, List.find?_append, hffd, newARRec]
      simp only [hfind', hdup']
      exact ⟨_, rfl⟩

/-- C2 witness: the general repeated-invocation conjunct applied to the
concrete post-scenario store. -/
theorem C2_witness :
    ∃ r2, createNextMonthAR "AR-1" jan31 "AR-9" scenBilling1 =
      Except.ok (r2, scenBilling1) :=
  C2_next_month_clamped_and_guarded.2.2.2.2.2.2.2 scenBilling1 "AR-1" jan31
    "AR-3" "AR-9" "AR-2" scenBilling1 rfl

/-- C3 (divergence witness): on a store holding a single PENDING AR
exactly 7 days past its due date with both delivery addresses present,
one sweep run promotes the AR to OVERDUE (appending one event) but
enqueues no alert at all — no OVERDUE and no ESCALATION — because the
overdue-alert pass re-queries findOverdue, which only returns
status-PENDING ARs, after the promotion pass has already moved every
such AR to OVERDUE; the last conjunct exhibits that empty re-query. -/
theorem C3_sweep_enqueues_no_overdue_alerts :
    (runSweep sweepToday sweepState0).queue.alerts = [] ∧
    (runSweep sweepToday sweepState0).cmd.ars.map ARState.current_status
      = [ARStatus.OVERDUE] ∧
    (runSweep sweepToday sweepState0).cmd.events.length = 1 ∧
    findOverdue (updateOverdueStatus (toMidnightMs sweepToday) sweepState0).cmd.ars
      (toMidnightMs sweepToday) = [] := by
  refine ⟨?_, ?_, ?_, ?_⟩ <;> rfl

end PaymentTracker
